import Mathlib

/-!
Shallow embedding of `src/module_7.py`: an in-memory contact directory
(address book) with phone/birthday validation, an upcoming-birthday query
with weekend adjustment, and decorator-based error translation on the
command handlers.

Modelling conventions:
* Python strings are Lean `String`s; character-level operations work on
  `String.data : List Char`.
* Machine dates (`datetime.date`) are triples of naturals (`PyDate`);
  `datetime` arithmetic is expressed through the proleptic-Gregorian
  ordinal (`toOrdinal`, matching CPython `date.toordinal`).
* Fallible Python code (raised exceptions) returns `Except PyError _`.
* Handlers mutate the book through aliased records; the embedding threads
  the updated `AddressBook` explicitly and pairs it with the result.
-/

set_option maxRecDepth 4000

namespace Module7

/-- The exception kinds distinguished by the `input_error` decorator:
`ValueError`, `KeyError`, `IndexError`, and the catch-all `Exception`.
Each carries its `str(e)` rendering. -/
inductive PyError where
  | valueError (msg : String)
  | keyError (msg : String)
  | indexError (msg : String)
  | otherError (msg : String)
deriving DecidableEq, Repr

/-- The `input_error` decorator: converts a raised exception into the
returned display string (`except ValueError as e: return str(e)`,
`except KeyError: return "Contact not found"`, `except IndexError: ...`,
`except Exception as e: return f"An error occurred: {str(e)}"`). -/
def inputError : Except PyError String → String
  | .ok s => s
  | .error (.valueError m) => m
  | .error (.keyError _) => "Contact not found"
  | .error (.indexError _) => "Invalid command format. Please check the arguments."
  | .error (.otherError m) => "An error occurred: " ++ m

/-- ASCII digit test (`'0'` to `'9'`). -/
def isAsciiDigit (c : Char) : Bool := 48 ≤ c.toNat && c.toNat ≤ 57

/-- The complete set of code points accepted by CPython `str.isdigit`
(every character whose Unicode `Numeric_Type` is `Digit` or `Decimal`),
as inclusive ranges, from the Unicode 14.0.0 character database shipped
with CPython 3.11.  It starts with the ASCII digits U+0030..U+0039 and
also contains, e.g., the superscripts U+00B2/U+00B3/U+00B9, the
Arabic-Indic digits U+0660..U+0669 and the Devanagari digits
U+0966..U+096F. -/
def pyDigitRanges : List (Nat × Nat) :=
  [ (48, 57), (178, 179), (185, 185), (1632, 1641), (1776, 1785), (1984, 1993), (2406, 2415),
   (2534, 2543), (2662, 2671), (2790, 2799), (2918, 2927), (3046, 3055), (3174, 3183),
   (3302, 3311), (3430, 3439), (3558, 3567), (3664, 3673), (3792, 3801), (3872, 3881),
   (4160, 4169), (4240, 4249), (4969, 4977), (6112, 6121), (6160, 6169), (6470, 6479),
   (6608, 6618), (6784, 6793), (6800, 6809), (6992, 7001), (7088, 7097), (7232, 7241),
   (7248, 7257), (8304, 8304), (8308, 8313), (8320, 8329), (9312, 9320), (9332, 9340),
   (9352, 9360), (9450, 9450), (9461, 9469), (9471, 9471), (10102, 10110), (10112, 10120),
   (10122, 10130), (42528, 42537), (43216, 43225), (43264, 43273), (43472, 43481), (43504, 43513),
   (43600, 43609), (44016, 44025), (65296, 65305), (66720, 66729), (68160, 68163), (68912, 68921),
   (69216, 69224), (69714, 69722), (69734, 69743), (69872, 69881), (69942, 69951), (70096, 70105),
   (70384, 70393), (70736, 70745), (70864, 70873), (71248, 71257), (71360, 71369), (71472, 71481),
   (71904, 71913), (72016, 72025), (72784, 72793), (73040, 73049), (73120, 73129), (92768, 92777),
   (92864, 92873), (93008, 93017), (120782, 120831), (123200, 123209), (123632, 123641),
   (125264, 125273), (127232, 127242), (130032, 130041)]

/-- Character test for CPython `str.isdigit`: membership in
`pyDigitRanges`. -/
def pyIsDigitChar (c : Char) : Bool :=
  pyDigitRanges.any fun r => r.1 ≤ c.toNat && c.toNat ≤ r.2

/-- CPython `str.isdigit`: nonempty and every character is a digit. -/
def pyIsDigit (s : String) : Bool :=
  !s.data.isEmpty && s.data.all pyIsDigitChar

/-- Model of `Phone.validate_phone`: `phone.isdigit() and len(phone) == 10`. -/
def validate_phone (s : String) : Bool :=
  pyIsDigit s && s.data.length == 10

/-- The `Phone.__init__` constructor: returns the validated value or raises
`ValueError("Phone number must be 10 digits")`. -/
def mkPhone (s : String) : Except PyError String :=
  if validate_phone s then .ok s
  else .error (.valueError "Phone number must be 10 digits")

/-! ### The calendar model (CPython `datetime.date`) -/

/-- A `datetime.date`-like triple.  Functions below state explicitly which
validity constraints they need. -/
structure PyDate where
  year : Nat
  month : Nat
  day : Nat
deriving DecidableEq, Repr

/-- Gregorian leap-year rule, as used by `datetime`. -/
def isLeap (y : Nat) : Bool :=
  y % 4 == 0 && (y % 100 != 0 || y % 400 == 0)

/-- Number of days in a month of a given year (`datetime` calendar). -/
def daysInMonth (y m : Nat) : Nat :=
  match m with
  | 1 => 31
  | 2 => if isLeap y then 29 else 28
  | 3 => 31
  | 4 => 30
  | 5 => 31
  | 6 => 30
  | 7 => 31
  | 8 => 31
  | 9 => 30
  | 10 => 31
  | 11 => 30
  | 12 => 31
  | _ => 0

/-- Days in the months strictly before month `m` of year `y`. -/
def daysBeforeMonth (y m : Nat) : Nat :=
  let l : Nat := if isLeap y then 1 else 0
  match m with
  | 1 => 0
  | 2 => 31
  | 3 => 59 + l
  | 4 => 90 + l
  | 5 => 120 + l
  | 6 => 151 + l
  | 7 => 181 + l
  | 8 => 212 + l
  | 9 => 243 + l
  | 10 => 273 + l
  | 11 => 304 + l
  | 12 => 334 + l
  | _ => 0

/-- CPython `date.toordinal`: day 1 is 0001-01-01 of the proleptic
Gregorian calendar. -/
def toOrdinal (d : PyDate) : Nat :=
  365 * (d.year - 1) + (d.year - 1) / 4 - (d.year - 1) / 100 + (d.year - 1) / 400
    + daysBeforeMonth d.year d.month + d.day

/-- CPython `date.weekday`: Monday = 0, ..., Sunday = 6
(0001-01-01 is a Monday). -/
def weekday (d : PyDate) : Nat := (toOrdinal d + 6) % 7

/-- Python `date` comparison (`<`): component-wise lexicographic, which on valid
dates coincides with chronological order. -/
def ltDate (a b : PyDate) : Bool :=
  a.year < b.year
    || (a.year == b.year
        && (a.month < b.month || (a.month == b.month && a.day < b.day)))

/-- Difference `(c - today).days` of the two dates, in days. -/
def daysUntil (today c : PyDate) : Int :=
  (toOrdinal c : Int) - (toOrdinal today : Int)

/-- The `datetime`/`date` constructor checks, in CPython's order: year in
`MINYEAR..MAXYEAR`, then month, then day. -/
def mkDatetime (y m d : Nat) : Except PyError PyDate :=
  if y < 1 ∨ 9999 < y then
    .error (.valueError ("year " ++ toString y ++ " is out of range"))
  else if m < 1 ∨ 12 < m then
    .error (.valueError "month must be in 1..12")
  else if d < 1 ∨ daysInMonth y m < d then
    .error (.valueError "day is out of range for month")
  else .ok ⟨y, m, d⟩

/-- Model of `date.replace(year=y)`: rebuild the date with the new year, re-running
the constructor checks (this is what fails on Feb 29 in a non-leap year). -/
def replaceYear (d : PyDate) (y : Nat) : Except PyError PyDate :=
  mkDatetime y d.month d.day

/-- Calendar successor of a day (used to express `+ timedelta(days=n)` for
the small shifts the code performs). -/
def nextDay (d : PyDate) : PyDate :=
  if d.day < daysInMonth d.year d.month then ⟨d.year, d.month, d.day + 1⟩
  else if d.month < 12 then ⟨d.year, d.month + 1, 1⟩
  else ⟨d.year + 1, 1, 1⟩

/-- Model of `d + timedelta(days=n)` for a valid date `d` (range overflow is checked
separately by the caller, as CPython raises `OverflowError`). -/
def addDays : PyDate → Nat → PyDate
  | d, 0 => d
  | d, n + 1 => addDays (nextDay d) n

/-! ### The `strptime("%d.%m.%Y")` model

CPython `_strptime` compiles `%d` to the regex `3[01]|[12]\d|0[1-9]|[1-9]`,
`%m` to `1[0-2]|0[1-9]|[1-9]` and `%Y` to four `\d`, joined by the literal
dots, anchored at the start, and afterwards requires that the whole input
was consumed.  The alternation lists below are in CPython's priority
order; `\d` is modelled as an ASCII digit (CPython's `\d` also matches
non-ASCII decimal digits, which this development does not exercise). -/

/-- Numeric value of an ASCII digit character. -/
def digitVal (c : Char) : Nat := c.toNat - 48

/-- Test for `[1-9]`. -/
def isDigit19 (c : Char) : Bool := 49 ≤ c.toNat && c.toNat ≤ 57

/-- Candidate matches (value, rest) of the `%d` regex
`3[0-1]|[1-2]\d|0[1-9]|[1-9]| [1-9]` (the last alternative is a
space-padded day), in alternation-priority order. -/
def matchDay (cs : List Char) : List (Nat × List Char) :=
  (match cs with
   | c1 :: c2 :: rest =>
     if c1 = '3' && (c2 = '0' || c2 = '1') then [(30 + digitVal c2, rest)]
     else if (c1 = '1' || c1 = '2') && isAsciiDigit c2 then
       [(10 * digitVal c1 + digitVal c2, rest)]
     else if c1 = '0' && isDigit19 c2 then [(digitVal c2, rest)]
     else []
   | _ => []) ++
  (match cs with
   | c1 :: rest => if isDigit19 c1 then [(digitVal c1, rest)] else []
   | _ => []) ++
  (match cs with
   | c1 :: c2 :: rest => if c1 = ' ' && isDigit19 c2 then [(digitVal c2, rest)] else []
   | _ => [])

/-- Candidate matches of the `%m` regex `1[0-2]|0[1-9]|[1-9]`, in
alternation-priority order. -/
def matchMonth (cs : List Char) : List (Nat × List Char) :=
  (match cs with
   | c1 :: c2 :: rest =>
     if c1 = '1' && (c2 = '0' || c2 = '1' || c2 = '2') then
       [(10 + digitVal c2, rest)]
     else if c1 = '0' && isDigit19 c2 then [(digitVal c2, rest)]
     else []
   | _ => []) ++
  (match cs with
   | c1 :: rest => if isDigit19 c1 then [(digitVal c1, rest)] else []
   | _ => [])

/-- The `%Y` regex: exactly four digits. -/
def matchYear4 (cs : List Char) : Option (Nat × List Char) :=
  match cs with
  | a :: b :: c :: d :: rest =>
    if isAsciiDigit a && isAsciiDigit b && isAsciiDigit c && isAsciiDigit d then
      some (1000 * digitVal a + 100 * digitVal b + 10 * digitVal c + digitVal d, rest)
    else none
  | _ => none

/-- Regex phase of `strptime(value, "%d.%m.%Y")`: day, literal dot, month,
literal dot, four-digit year, end of input; alternatives tried in priority
order with backtracking. -/
def parseBD (cs : List Char) : Option (Nat × Nat × Nat) :=
  (matchDay cs).findSome? fun dc =>
    match dc.2 with
    | '.' :: r2 =>
      (matchMonth r2).findSome? fun mc =>
        match mc.2 with
        | '.' :: r4 =>
          match matchYear4 r4 with
          | some (y, []) => some (dc.1, mc.1, y)
          | _ => none
        | _ => none
    | _ => none

/-- The `Birthday.__init__` constructor: `datetime.strptime(value,
"%d.%m.%Y")` (regex phase, then the `datetime` constructor checks); any
`ValueError` is replaced by
`ValueError("Invalid date format. Use DD.MM.YYYY")`.  On success the
original string is stored. -/
def mkBirthday (value : String) : Except PyError String :=
  match parseBD value.data with
  | none => .error (.valueError "Invalid date format. Use DD.MM.YYYY")
  | some (d, m, y) =>
    match mkDatetime y m d with
    | .ok _ => .ok value
    | .error _ => .error (.valueError "Invalid date format. Use DD.MM.YYYY")

/-! ### Record and AddressBook -/

/-- One contact: `Record` with its `name.value`, the `Phone.value`s of its
phone list (in order), and the stored `Birthday.value` if any. -/
structure Record where
  name : String
  phones : List String
  birthday : Option String
deriving DecidableEq, Repr

/-- Model of `Record.find_phone`: first phone whose value equals `phone`. -/
def Record.find_phone (r : Record) (phone : String) : Option String :=
  r.phones.find? fun q => q == phone

/-- Model of `Record.add_phone`: validate and append. -/
def Record.add_phone (r : Record) (phone : String) : Except PyError Record :=
  (mkPhone phone).map fun v => { r with phones := r.phones ++ [v] }

/-- Replace the value of the first entry equal to `old` (the in-place
`phone_to_edit.value = new_phone` mutation). -/
def replaceFirst : List String → String → String → List String
  | [], _, _ => []
  | p :: ps, old, new2 =>
    if p = old then new2 :: ps else p :: replaceFirst ps old new2

/-- Model of `Record.edit_phone`: look up `old_phone`; if present, construct
`Phone(new_phone)` (which raises on an invalid value), then the
source's redundant `validate_phone` re-check (its `raise` is dead code),
then overwrite the matched entry's value in place; if absent, raise
`ValueError("Phone number not found")`. -/
def Record.edit_phone (r : Record) (old_phone new_phone : String) :
    Except PyError Record :=
  match r.find_phone old_phone with
  | some _ =>
    match mkPhone new_phone with
    | .error e => .error e
    | .ok _ =>
      if validate_phone new_phone = false then
        .error (.valueError "New phone number must be 10 digits")
      else .ok { r with phones := replaceFirst r.phones old_phone new_phone }
  | none => .error (.valueError "Phone number not found")

/-- Model of `Record.add_birthday`: validate and overwrite the stored birthday. -/
def Record.add_birthday (r : Record) (birthday : String) : Except PyError Record :=
  (mkBirthday birthday).map fun v => { r with birthday := some v }

/-- Model of `Record.__str__`. -/
def Record.render (r : Record) : String :=
  "Contact name: " ++ r.name ++ ", phones: " ++ String.intercalate "; " r.phones
    ++ (match r.birthday with
        | some b => ", birthday: " ++ b
        | none => "")

/-- Model of `AddressBook`: the `UserDict` data, an insertion-ordered association
list with unique keys (a Python `dict`). -/
structure AddressBook where
  data : List (String × Record)
deriving DecidableEq, Repr

/-- Model of `AddressBook.find`: `self.data.get(name)`. -/
def AddressBook.find (b : AddressBook) (name : String) : Option Record :=
  (b.data.find? fun kv => kv.1 == name).map (·.2)

/-- Overwrite the value stored at an existing key (dict assignment to a
present key keeps its position; also models in-place mutation of the
record aliased from the dict). -/
def AddressBook.store (b : AddressBook) (name : String) (r : Record) : AddressBook :=
  ⟨b.data.map fun kv => if kv.1 = name then (kv.1, r) else kv⟩

/-- Model of `AddressBook.add_record`: `self.data[record.name.value] = record`. -/
def AddressBook.add_record (b : AddressBook) (r : Record) : AddressBook :=
  if b.data.any fun kv => kv.1 == r.name then b.store r.name r
  else ⟨b.data ++ [(r.name, r)]⟩

/-! ### `get_upcoming_birthdays` -/

/-- Lines 106-110 of the source: `birthday_date.replace(year=today.year)`,
advanced to `today.year + 1` when the candidate is before today. -/
def candidateFor (today bd : PyDate) : Except PyError PyDate :=
  match replaceYear bd today.year with
  | .error e => .error e
  | .ok c0 => if ltDate c0 today then replaceYear c0 (today.year + 1) else .ok c0

/-- Weekend adjustment (lines 116-120): Saturday (weekday 5) shifts the
congratulation date by 2 days, Sunday (weekday 6) by 1 day. -/
def weekendAdjust (c : PyDate) : PyDate :=
  if weekday c = 5 then addDays c 2
  else if weekday c = 6 then addDays c 1
  else c

/-- Zero-pad to two digits (`%d`, `%m` of `strftime`). -/
def pad2 (n : Nat) : String := if n < 10 then "0" ++ toString n else toString n

/-- Zero-pad to four digits (`%Y`; the development only formats four-digit
years). -/
def pad4 (n : Nat) : String :=
  if n < 10 then "000" ++ toString n
  else if n < 100 then "00" ++ toString n
  else if n < 1000 then "0" ++ toString n
  else toString n

/-- Model of `congratulation_date.strftime("%d.%m.%Y")`. -/
def formatDate (d : PyDate) : String :=
  pad2 d.day ++ "." ++ pad2 d.month ++ "." ++ pad4 d.year

/-- The body of the `get_upcoming_birthdays` loop for one record: `.ok none`
when the record is skipped, `.ok (some entry)` when it is emitted, `.error`
when the iteration raises (unparsable stored birthday, `date.replace`
failure, or `OverflowError` from the timedelta shift past year 9999). -/
def recordEntry (today : PyDate) (r : Record) : Except PyError (Option (String × String)) :=
  match r.birthday with
  | none => .ok none
  | some bs =>
    match parseBD bs.data with
    -- CPython's message also embeds the quoted data string and format;
    -- abbreviated here.  This branch is unreachable for birthdays stored
    -- through `Record.add_birthday`, which validates the same format.
    | none => .error (.valueError "time data does not match format")
    | some (d, m, y) =>
      match mkDatetime y m d with
      | .error e => .error e
      | .ok bd =>
        match candidateFor today bd with
        | .error e => .error e
        | .ok c =>
          if 0 ≤ daysUntil today c ∧ daysUntil today c ≤ 7 then
            if (weekendAdjust c).year ≤ 9999 then
              .ok (some (r.name, formatDate (weekendAdjust c)))
            else .error (.otherError "date value out of range")
          else .ok none

/-- The iteration of `get_upcoming_birthdays` over `self.data.values()`,
emitting the entries in insertion order; the first raised exception
propagates. -/
def getUpcomingAux (today : PyDate) : List (String × Record) → Except PyError (List (String × String))
  | [] => .ok []
  | kv :: rest =>
    match recordEntry today kv.2 with
    | .error e => .error e
    | .ok e =>
      match getUpcomingAux today rest with
      | .error e2 => .error e2
      | .ok l => .ok (e.toList ++ l)

/-- Model of `AddressBook.get_upcoming_birthdays`, as a function of today's date
(the source reads `datetime.today()`). -/
def get_upcoming_birthdays (b : AddressBook) (today : PyDate) :
    Except PyError (List (String × String)) :=
  getUpcomingAux today b.data

/-! ### Command handlers

Each Python handler takes `(args, book)`, may mutate the book through the
records aliased in it, and returns a display string or raises.  The
embedding returns the raw outcome paired with the resulting book; the
`input_error` decorator is applied via `inputError` on the first
component.  `birthdays` additionally takes today's date, which the source
reads from the clock inside `get_upcoming_birthdays`. -/

/-- ASCII apostrophe, used in the `show_birthday` message. -/
def apos : String := String.singleton (Char.ofNat 39)

/-- Handler `add_contact`. -/
def add_contact (args : List String) (book : AddressBook) :
    Except PyError String × AddressBook :=
  match args with
  | name :: phone :: _ =>
    (match book.find name with
     | some record =>
       if phone ≠ "" then
         match record.add_phone phone with
         | .ok r2 => (.ok "Contact updated.", book.store name r2)
         | .error e => (.error e, book)
       else (.ok "Contact updated.", book)
     | none =>
       let record : Record := ⟨name, [], none⟩
       let book1 := book.add_record record
       if phone ≠ "" then
         match record.add_phone phone with
         | .ok r2 => (.ok "Contact added.", book1.store name r2)
         | .error e => (.error e, book1)
       else (.ok "Contact added.", book1))
  | _ => (.error (.indexError "Please provide name and phone number"), book)

/-- Handler `change_contact`. -/
def change_contact (args : List String) (book : AddressBook) :
    Except PyError String × AddressBook :=
  match args with
  | name :: old_phone :: new_phone :: _ =>
    (match book.find name with
     | none => (.error (.keyError "Contact not found"), book)
     | some record =>
       match record.edit_phone old_phone new_phone with
       | .ok r2 => (.ok "Contact updated.", book.store name r2)
       | .error e => (.error e, book))
  | _ => (.error (.indexError "Please provide name, old phone, and new phone"), book)

/-- Handler `show_phone`. -/
def show_phone (args : List String) (book : AddressBook) :
    Except PyError String × AddressBook :=
  match args with
  | name :: _ =>
    (match book.find name with
     | none => (.error (.keyError "Contact not found"), book)
     | some record =>
       if record.phones.isEmpty then (.ok (name ++ " has no phone numbers"), book)
       else (.ok (name ++ ": " ++ String.intercalate ", " record.phones), book))
  | [] => (.error (.indexError "Please provide contact name"), book)

/-- Handler `show_all`. -/
def show_all (_args : List String) (book : AddressBook) :
    Except PyError String × AddressBook :=
  if book.data.isEmpty then (.ok "No contacts found.", book)
  else
    (.ok (String.intercalate "\n" (book.data.map fun kv => kv.2.render)), book)

/-- The `add_birthday` handler. -/
def add_birthday (args : List String) (book : AddressBook) :
    Except PyError String × AddressBook :=
  match args with
  | name :: birthday :: _ =>
    (match book.find name with
     | none => (.error (.keyError "Contact not found"), book)
     | some record =>
       match record.add_birthday birthday with
       | .ok r2 => (.ok "Birthday added.", book.store name r2)
       | .error e => (.error e, book))
  | _ => (.error (.indexError "Please provide name and birthday (DD.MM.YYYY)"), book)

/-- Handler `show_birthday`. -/
def show_birthday (args : List String) (book : AddressBook) :
    Except PyError String × AddressBook :=
  match args with
  | name :: _ =>
    (match book.find name with
     | none => (.error (.keyError "Contact not found"), book)
     | some record =>
       match record.birthday with
       | some b => (.ok (name ++ apos ++ "s birthday: " ++ b), book)
       | none => (.ok (name ++ " has no birthday set"), book))
  | [] => (.error (.indexError "Please provide contact name"), book)

/-- The `birthdays` handler. -/
def birthdays (_args : List String) (book : AddressBook) (today : PyDate) :
    Except PyError String × AddressBook :=
  match get_upcoming_birthdays book today with
  | .error e => (.error e, book)
  | .ok upcoming =>
    if upcoming.isEmpty then (.ok "No upcoming birthdays in the next 7 days.", book)
    else
      (.ok (String.intercalate "\n"
        ("Upcoming birthdays:" :: upcoming.map fun bi => bi.1 ++ ": " ++ bi.2)), book)

/-- How the `input_error` decorator converts a handler outcome into the
returned display string: successes pass through, `ValueError` renders as
its message, `KeyError` as `"Contact not found"`, `IndexError` as the
fixed invalid-format message, anything else as
`"An error occurred: {description}"`. -/
def convertsTo : Except PyError String → String → Prop
  | .ok v, s => s = v
  | .error (.valueError m), s => s = m
  | .error (.keyError _), s => s = "Contact not found"
  | .error (.indexError _), s => s = "Invalid command format. Please check the arguments."
  | .error (.otherError m), s => s = "An error occurred: " ++ m

/-! ### Definitions used to state the claims -/

/-- A record qualifies for `get_upcoming_birthdays`: it has a birthday, the
stored string parses, the parsed date is constructible, the candidate
(year replaced by today's year, advanced to next year when earlier than
today) exists, and the candidate lies 0..7 days after today. -/
def qualifies (today : PyDate) (r : Record) : Prop :=
  ∃ bs d m y bd c,
    r.birthday = some bs
    ∧ parseBD bs.data = some (d, m, y)
    ∧ mkDatetime y m d = .ok bd
    ∧ candidateFor today bd = .ok c
    ∧ 0 ≤ daysUntil today c ∧ daysUntil today c ≤ 7

/-- The pure value of one loop iteration: the emitted entry, or `none` when
the record is skipped or the iteration would raise. -/
def entryOk (today : PyDate) (r : Record) : Option (String × String) :=
  match recordEntry today r with
  | .ok o => o
  | .error _ => none

/-- ASCII digit character of a digit value. -/
def digitChar (n : Nat) : Char :=
  match n with
  | 0 => '0'
  | 1 => '1'
  | 2 => '2'
  | 3 => '3'
  | 4 => '4'
  | 5 => '5'
  | 6 => '6'
  | 7 => '7'
  | 8 => '8'
  | _ => '9'

/-- The fixed-width `DD.MM.YYYY` rendering of a (day, month, year) triple:
the canonical form every fixed-width date string takes. -/
def fixedDMY (d m y : Nat) : String :=
  ⟨[digitChar (d / 10), digitChar (d % 10), '.',
    digitChar (m / 10), digitChar (m % 10), '.',
    digitChar (y / 1000), digitChar (y / 100 % 10),
    digitChar (y / 10 % 10), digitChar (y % 10)]⟩

/-! ### Concrete fixtures used by witnesses and counterexamples -/

/-- The spec's scenario contact: Bob, phone 1112223333, birthday
15.06.2024 (a Saturday). -/
def bobRecord : Record := ⟨"Bob", ["1112223333"], some "15.06.2024"⟩

/-- A one-contact book holding `bobRecord`. -/
def bobBook : AddressBook := ⟨[("Bob", bobRecord)]⟩

/-- The spec's scenario date, Monday 2024-06-10. -/
def june10 : PyDate := ⟨2024, 6, 10⟩

/-- A one-contact book whose contact has the leap-day birthday
29.02.2024. -/
def feb29Book : AddressBook := ⟨[("Ann", ⟨"Ann", [], some "29.02.2024"⟩)]⟩

/-- A ten-character string of Arabic-Indic digits (U+0662): every
character passes CPython `str.isdigit` but none is an ASCII digit. -/
def arabicPhone : String := String.mk (List.replicate 10 (Char.ofNat 1634))

instance {ε α : Type} [DecidableEq ε] [DecidableEq α] : DecidableEq (Except ε α) :=
  fun a b =>
    match a, b with
    | .ok x, .ok y =>
      if h : x = y then .isTrue (by rw [h]) else .isFalse fun hh => h (Except.ok.inj hh)
    | .ok _, .error _ => .isFalse fun hh => Except.noConfusion hh
    | .error _, .ok _ => .isFalse fun hh => Except.noConfusion hh
    | .error e, .error f =>
      if h : e = f then .isTrue (by rw [h]) else .isFalse fun hh => h (Except.error.inj hh)

/-! ## Theorems -/

/-- C3 (amended): `Phone` construction succeeds exactly on 10-character
strings whose characters all pass CPython `str.isdigit`; every other
string fails with `ValueError("Phone number must be 10 digits")`; ASCII
digits are among the accepted characters (so every 10-character
all-ASCII-digit string succeeds). -/
theorem phone_validation (s : String) :
    ((s.data.length = 10 ∧ s.data.all pyIsDigitChar = true) → mkPhone s = .ok s)
    ∧ (¬(s.data.length = 10 ∧ s.data.all pyIsDigitChar = true) →
        mkPhone s = .error (.valueError "Phone number must be 10 digits"))
    ∧ (∀ c ∈ s.data, isAsciiDigit c = true → pyIsDigitChar c = true) := by
  refine ⟨?_, ?_, ?_⟩
  · rintro ⟨hlen, hall⟩
    have hne : s.data.isEmpty = false := by
      cases hd : s.data with
      | nil => rw [hd] at hlen; simp at hlen
      | cons a l => simp [List.isEmpty]
    simp [mkPhone, validate_phone, pyIsDigit, hne, hall, hlen]
  · intro h
    have hv : validate_phone s = false := by
      by_contra hv
      rw [Bool.not_eq_false] at hv
      apply h
      simp only [validate_phone, pyIsDigit, Bool.and_eq_true, Bool.not_eq_true',
        beq_iff_eq] at hv
      exact ⟨hv.2, hv.1.2⟩
    simp [mkPhone, hv]
  · intro c _ h
    unfold pyIsDigitChar
    rw [List.any_eq_true]
    refine ⟨(48, 57), by decide, ?_⟩
    simpa [isAsciiDigit] using h

/-- C3 counterexample: a 10-character string of Arabic-Indic digits
contains no ASCII digit, yet `Phone` construction succeeds, because
CPython `str.isdigit` also accepts non-ASCII digit characters. -/
theorem phone_accepts_nonascii :
    mkPhone arabicPhone = .ok arabicPhone
    ∧ arabicPhone.data.length = 10
    ∧ arabicPhone.data.all isAsciiDigit = false := by
  refine ⟨rfl, rfl, rfl⟩

/-- C3 witness: both directions of `phone_validation` at concrete inputs. -/
theorem phone_validation_witness :
    mkPhone "1234567890" = .ok "1234567890"
    ∧ mkPhone "123" = .error (.valueError "Phone number must be 10 digits") :=
  ⟨(phone_validation "1234567890").1 (by decide),
   (phone_validation "123").2.1 (by decide)⟩

theorem digitVal_digitChar (k : Nat) (h : k ≤ 9) : digitVal (digitChar k) = k := by
  interval_cases k <;> rfl

theorem isAsciiDigit_digitChar (k : Nat) (h : k ≤ 9) :
    isAsciiDigit (digitChar k) = true := by
  interval_cases k <;> rfl

/-- Any fixed two-ASCII-digit day in 1..31 is the first candidate of the
`%d` alternation. -/
theorem matchDay_fixed (d : Nat) (h1 : 1 ≤ d) (h31 : d ≤ 31) (rest : List Char) :
    ∃ tl, matchDay (digitChar (d / 10) :: digitChar (d % 10) :: rest)
      = (d, rest) :: tl := by
  interval_cases d <;> exact ⟨_, rfl⟩

/-- Any fixed two-ASCII-digit month in 1..12 is the first candidate of the
`%m` alternation. -/
theorem matchMonth_fixed (m : Nat) (h1 : 1 ≤ m) (h12 : m ≤ 12) (rest : List Char) :
    ∃ tl, matchMonth (digitChar (m / 10) :: digitChar (m % 10) :: rest)
      = (m, rest) :: tl := by
  interval_cases m <;> exact ⟨_, rfl⟩

/-- The `%Y` regex reads back a four-ASCII-digit year. -/
theorem matchYear4_fixed (y : Nat) (hy : y ≤ 9999) :
    matchYear4 [digitChar (y / 1000), digitChar (y / 100 % 10),
      digitChar (y / 10 % 10), digitChar (y % 10)] = some (y, []) := by
  have h1 : y / 1000 ≤ 9 := by omega
  have h2 : y / 100 % 10 ≤ 9 := by omega
  have h3 : y / 10 % 10 ≤ 9 := by omega
  have h4 : y % 10 ≤ 9 := by omega
  simp only [matchYear4, isAsciiDigit_digitChar _ h1, isAsciiDigit_digitChar _ h2,
    isAsciiDigit_digitChar _ h3, isAsciiDigit_digitChar _ h4,
    digitVal_digitChar _ h1, digitVal_digitChar _ h2, digitVal_digitChar _ h3,
    digitVal_digitChar _ h4, Bool.and_self, if_true, Option.some.injEq, Prod.mk.injEq,
    and_true]
  omega

/-- The regex phase accepts every fixed-width `DD.MM.YYYY` rendering with
in-pattern field values, returning the encoded numbers. -/
theorem parseBD_fixed (d m y : Nat) (hd1 : 1 ≤ d) (hd31 : d ≤ 31)
    (hm1 : 1 ≤ m) (hm12 : m ≤ 12) (hy : y ≤ 9999) :
    parseBD (fixedDMY d m y).data = some (d, m, y) := by
  obtain ⟨tl, hD⟩ := matchDay_fixed d hd1 hd31
    ('.' :: digitChar (m / 10) :: digitChar (m % 10) :: '.' :: digitChar (y / 1000)
      :: digitChar (y / 100 % 10) :: digitChar (y / 10 % 10) :: digitChar (y % 10) :: [])
  obtain ⟨tl2, hM⟩ := matchMonth_fixed m hm1 hm12
    ('.' :: digitChar (y / 1000) :: digitChar (y / 100 % 10)
      :: digitChar (y / 10 % 10) :: digitChar (y % 10) :: [])
  have hY := matchYear4_fixed y hy
  show parseBD (digitChar (d / 10) :: digitChar (d % 10) :: '.' :: digitChar (m / 10)
      :: digitChar (m % 10) :: '.' :: digitChar (y / 1000) :: digitChar (y / 100 % 10)
      :: digitChar (y / 10 % 10) :: digitChar (y % 10) :: []) = some (d, m, y)
  unfold parseBD
  rw [hD, List.findSome?_cons]
  simp only
  rw [hM, List.findSome?_cons]
  simp only
  rw [hY]

/-- Every month has at most 31 days. -/
theorem daysInMonth_le_31 (y m : Nat) : daysInMonth y m ≤ 31 := by
  unfold daysInMonth
  split <;> (try split_ifs) <;> omega

/-- C4 (amended): `Birthday` construction succeeds on every fixed-width
`DD.MM.YYYY` calendar-valid string (day and month in pattern range, year
0001..9999); every failure yields exactly
`ValueError("Invalid date format. Use DD.MM.YYYY")`; `"30.02.2024"` and
`"13.13.2024"` fail; but `"1.1.2024"` succeeds, because CPython
`strptime` also accepts 1-digit day and month fields. -/
theorem birthday_validation :
    (∀ d m y, 1 ≤ y → y ≤ 9999 → 1 ≤ m → m ≤ 12 → 1 ≤ d → d ≤ daysInMonth y m →
        mkBirthday (fixedDMY d m y) = .ok (fixedDMY d m y))
    ∧ (∀ s, mkBirthday s = .ok s
        ∨ mkBirthday s = .error (.valueError "Invalid date format. Use DD.MM.YYYY"))
    ∧ mkBirthday "30.02.2024" = .error (.valueError "Invalid date format. Use DD.MM.YYYY")
    ∧ mkBirthday "13.13.2024" = .error (.valueError "Invalid date format. Use DD.MM.YYYY")
    ∧ mkBirthday "1.1.2024" = .ok "1.1.2024" := by
  refine ⟨?_, ?_, rfl, rfl, rfl⟩
  · intro d m y hy1 hy2 hm1 hm12 hd1 hdm
    have hd31 : d ≤ 31 := le_trans hdm (daysInMonth_le_31 y m)
    have hparse := parseBD_fixed d m y hd1 hd31 hm1 hm12 hy2
    have hmk : mkDatetime y m d = .ok ⟨y, m, d⟩ := by
      unfold mkDatetime
      rw [if_neg (by omega), if_neg (by omega), if_neg (by omega)]
    simp only [mkBirthday, hparse, hmk]
  · intro s
    unfold mkBirthday
    split
    · exact Or.inr rfl
    · split
      · exact Or.inl rfl
      · exact Or.inr rfl

/-- C4 counterexample: the claim says `"1.1.2024"` fails for having the
wrong field width, but CPython `strptime` accepts 1-digit day and month
fields, so `Birthday("1.1.2024")` succeeds. -/
theorem birthday_accepts_nonpadded :
    mkBirthday "1.1.2024" = .ok "1.1.2024"
    ∧ mkBirthday "1.1.2024" ≠ .error (.valueError "Invalid date format. Use DD.MM.YYYY") := by
  refine ⟨rfl, by decide⟩

/-- C4 witness: the general success direction of `birthday_validation` at
a concrete date. -/
theorem birthday_validation_witness :
    mkBirthday (fixedDMY 15 6 2024) = .ok (fixedDMY 15 6 2024) :=
  birthday_validation.1 15 6 2024 (by decide) (by decide) (by decide) (by decide)
    (by decide) (by decide)

/-- Helper fact: `replaceFirst` replaces exactly the first occurrence, keeping its
position and everything else. -/
theorem replaceFirst_take_drop (l : List String) (old new2 : String)
    (h : (l.find? fun q => q == old).isSome = true) :
    ∃ i, ∃ hi : i < l.length,
      l.get ⟨i, hi⟩ = old
      ∧ (∀ j (hj : j < i), l.get ⟨j, Nat.lt_trans hj hi⟩ ≠ old)
      ∧ replaceFirst l old new2 = l.take i ++ new2 :: l.drop (i + 1) := by
  induction l with
  | nil => simp [List.find?] at h
  | cons p ps ih =>
    by_cases hp : p = old
    · refine ⟨0, Nat.succ_pos _, hp, ?_, ?_⟩
      · intro j hj; omega
      · simp [replaceFirst, hp]
    · have hb : (p == old) = false := by simp [hp]
      have h' : (ps.find? fun q => q == old).isSome = true := by
        rw [List.find?] at h
        rw [hb] at h
        exact h
      obtain ⟨i, hi, hget, hmin, hrep⟩ := ih h'
      refine ⟨i + 1, Nat.succ_lt_succ hi, by simpa using hget, ?_, ?_⟩
      · intro j hj
        cases j with
        | zero => simpa using hp
        | succ k =>
          have hk : k < i := by omega
          simpa using hmin k hk
      · simp [replaceFirst, hp, hrep]

/-- C5: `edit_phone` with an absent `old_phone` raises
`ValueError("Phone number not found")` (and, returning before any
mutation, leaves the phone list untouched); with `old_phone` present and a
valid `new_phone` it overwrites exactly the first matching entry in
place, preserving its position and the rest of the sequence. -/
theorem edit_phone_behavior (r : Record) (old_phone new_phone : String) :
    (r.find_phone old_phone = none →
        r.edit_phone old_phone new_phone = .error (.valueError "Phone number not found"))
    ∧ (∀ (_ : (r.find_phone old_phone).isSome = true)
        (_ : validate_phone new_phone = true),
        ∃ i, ∃ hi : i < r.phones.length,
          r.phones.get ⟨i, hi⟩ = old_phone
          ∧ (∀ j (hj : j < i), r.phones.get ⟨j, Nat.lt_trans hj hi⟩ ≠ old_phone)
          ∧ r.edit_phone old_phone new_phone
              = .ok { r with
                  phones := r.phones.take i ++ new_phone :: r.phones.drop (i + 1) }) := by
  constructor
  · intro h
    simp [Record.edit_phone, h]
  · intro hf hv
    obtain ⟨i, hi, hget, hmin, hrep⟩ :=
      replaceFirst_take_drop r.phones old_phone new_phone hf
    refine ⟨i, hi, hget, hmin, ?_⟩
    rcases hs : r.find_phone old_phone with _ | p
    · rw [hs] at hf; simp at hf
    · simp [Record.edit_phone, hs, mkPhone, hv, hrep]

/-- C5 witness: both branches of `edit_phone_behavior` at concrete
records. -/
theorem edit_phone_behavior_witness :
    Record.edit_phone ⟨"A", ["1112223333"], none⟩ "9998887777" "0000000000"
        = .error (.valueError "Phone number not found")
    ∧ ∃ i, ∃ hi : i < (Record.mk "A" ["0000000000", "1234567890"] none).phones.length,
        (Record.mk "A" ["0000000000", "1234567890"] none).phones.get ⟨i, hi⟩ = "1234567890"
        ∧ (∀ j (hj : j < i),
            (Record.mk "A" ["0000000000", "1234567890"] none).phones.get
              ⟨j, Nat.lt_trans hj hi⟩ ≠ "1234567890")
        ∧ Record.edit_phone ⟨"A", ["0000000000", "1234567890"], none⟩ "1234567890" "1231231231"
            = .ok { Record.mk "A" ["0000000000", "1234567890"] none with
                phones := (Record.mk "A" ["0000000000", "1234567890"] none).phones.take i
                  ++ "1231231231"
                  :: (Record.mk "A" ["0000000000", "1234567890"] none).phones.drop (i + 1) } :=
  ⟨(edit_phone_behavior ⟨"A", ["1112223333"], none⟩ "9998887777" "0000000000").1 rfl,
   (edit_phone_behavior ⟨"A", ["0000000000", "1234567890"], none⟩ "1234567890"
      "1231231231").2 (by decide) (by decide)⟩

/-- C10: the `raise ValueError("New phone number must be 10 digits")`
branch of `edit_phone` is unreachable: whenever its guard would hold,
`Phone(new_phone)` has already raised
`ValueError("Phone number must be 10 digits")`. -/
theorem edit_phone_dead_branch (r : Record) (old_phone new_phone : String) :
    r.edit_phone old_phone new_phone
        ≠ .error (.valueError "New phone number must be 10 digits")
    ∧ ((r.find_phone old_phone).isSome = true → validate_phone new_phone = false →
        r.edit_phone old_phone new_phone
          = .error (.valueError "Phone number must be 10 digits")) := by
  rcases hf : r.find_phone old_phone with _ | p
  · constructor
    · simp [Record.edit_phone, hf]
    · intro hs; simp at hs
  · cases hv : validate_phone new_phone with
    | false =>
      have hm : mkPhone new_phone = .error (.valueError "Phone number must be 10 digits") := by
        simp [mkPhone, hv]
      constructor
      · simp [Record.edit_phone, hf, hm]
      · intro _ _
        simp [Record.edit_phone, hf, hm]
    | true =>
      have hm : mkPhone new_phone = .ok new_phone := by simp [mkPhone, hv]
      constructor
      · simp [Record.edit_phone, hf, hm, hv]
      · intro _ hvf
        simp at hvf

/-- C10 witness: with the old phone present and an invalid new phone, the
message is the `Phone` constructor's, not the dead branch's. -/
theorem edit_phone_dead_branch_witness :
    Record.edit_phone ⟨"A", ["1112223333"], none⟩ "1112223333" "123"
        = .error (.valueError "Phone number must be 10 digits") :=
  (edit_phone_dead_branch ⟨"A", ["1112223333"], none⟩ "1112223333" "123").2
    (by decide) (by decide)

/-- C6 (amended): `add` on an absent name with a nonempty invalid phone
returns the `Phone` validation message, and the directory has gained the
new record with no phones: the create-step precedes phone validation and
the invalid phone never joins the sequence.  (When the phone argument is
the empty string, the handler's `if phone:` guard skips `add_phone`
entirely and the handler returns "Contact added." instead.) -/
theorem add_contact_invalid_phone (n p : String) (book : AddressBook)
    (habs : book.find n = none) (hinv : validate_phone p = false) (hne : p ≠ "") :
    inputError (add_contact [n, p] book).1 = "Phone number must be 10 digits"
    ∧ (add_contact [n, p] book).2.data = book.data ++ [(n, ⟨n, [], none⟩)] := by
  have hadd : Record.add_phone ⟨n, [], none⟩ p
      = .error (.valueError "Phone number must be 10 digits") := by
    simp [Record.add_phone, mkPhone, hinv, Except.map]
  have hfind : book.data.find? (fun kv => kv.1 == n) = none := by
    rcases h : book.data.find? (fun kv => kv.1 == n) with _ | kv
    · exact h
    · rw [AddressBook.find, h] at habs; simp at habs
  have hany : (book.data.any fun kv => kv.1 == n) = false := by
    rw [List.any_eq_false]
    exact List.find?_eq_none.mp hfind
  have hrec : book.add_record ⟨n, [], none⟩ = ⟨book.data ++ [(n, ⟨n, [], none⟩)]⟩ := by
    simp [AddressBook.add_record, hany]
  constructor
  · simp [add_contact, habs, hne, hadd, hrec, inputError]
  · simp [add_contact, habs, hne, hadd, hrec]

/-- C6 counterexample: the empty string is an invalid phone, yet `add` on
an absent name with it returns "Contact added.", not the validation
message, because `if phone:` is false for the empty string. -/
theorem add_contact_empty_phone :
    validate_phone "" = false
    ∧ inputError (add_contact ["Dan", ""] (⟨[]⟩ : AddressBook)).1 = "Contact added."
    ∧ ("Contact added." : String) ≠ "Phone number must be 10 digits" := by
  refine ⟨rfl, rfl, by decide⟩

/-- C6 witness: `add_contact_invalid_phone` on an empty book with the
spec's scenario input. -/
theorem add_contact_invalid_phone_witness :
    inputError (add_contact ["Dan", "123"] (⟨[]⟩ : AddressBook)).1
        = "Phone number must be 10 digits"
    ∧ (add_contact ["Dan", "123"] (⟨[]⟩ : AddressBook)).2.data
        = [] ++ [("Dan", ⟨"Dan", [], none⟩)] :=
  add_contact_invalid_phone "Dan" "123" ⟨[]⟩ rfl (by decide) (by decide)

/-- C7 (amended): the `birthdays` handler reports
"No upcoming birthdays in the next 7 days." exactly when
`get_upcoming_birthdays` returns the empty sequence, and otherwise the
header line "Upcoming birthdays:" followed by the newline-joined
"name: date" lines in directory insertion order. -/
theorem birthdays_output (args : List String) (book : AddressBook) (today : PyDate)
    (res : List (String × String))
    (hok : get_upcoming_birthdays book today = .ok res) :
    (res = [] → inputError (birthdays args book today).1
        = "No upcoming birthdays in the next 7 days.")
    ∧ (res ≠ [] → inputError (birthdays args book today).1
        = String.intercalate "\n"
            ("Upcoming birthdays:" :: res.map fun bi => bi.1 ++ ": " ++ bi.2)) := by
  constructor
  · intro h
    subst h
    simp [birthdays, hok, inputError]
  · intro h
    rcases res with _ | ⟨a, l⟩
    · exact absurd rfl h
    · simp [birthdays, hok, inputError]

/-- C7 counterexample: with a qualifying contact the handler's output
starts with the header line "Upcoming birthdays:", so it is not the bare
newline-joined list of "name: date" lines the claim describes. -/
theorem birthdays_header_line :
    inputError (birthdays [] bobBook june10).1 = "Upcoming birthdays:\nBob: 17.06.2024"
    ∧ ("Upcoming birthdays:\nBob: 17.06.2024" : String) ≠ "Bob: 17.06.2024" := by
  refine ⟨rfl, by decide⟩

/-- C7 witness: both branches of `birthdays_output`, on an empty book and
on the scenario book. -/
theorem birthdays_output_witness :
    inputError (birthdays [] (⟨[]⟩ : AddressBook) june10).1
        = "No upcoming birthdays in the next 7 days."
    ∧ inputError (birthdays [] bobBook june10).1
        = String.intercalate "\n"
            ("Upcoming birthdays:"
              :: ([("Bob", "17.06.2024")].map fun bi => bi.1 ++ ": " ++ bi.2)) :=
  ⟨(birthdays_output [] ⟨[]⟩ june10 [] rfl).1 rfl,
   (birthdays_output [] bobBook june10 [("Bob", "17.06.2024")] rfl).2 (by decide)⟩

/-- C8: every handler's decorated result is a display string obtained from
its outcome by the documented conversion: successes pass through,
`ValueError` renders as its message text, `KeyError` as
"Contact not found", `IndexError` as
"Invalid command format. Please check the arguments.", and any other
exception as "An error occurred: {description}" — no failure escapes the
handler boundary. -/
theorem handlers_convert (args : List String) (book : AddressBook) (today : PyDate) :
    convertsTo (add_contact args book).1 (inputError (add_contact args book).1)
    ∧ convertsTo (change_contact args book).1 (inputError (change_contact args book).1)
    ∧ convertsTo (show_phone args book).1 (inputError (show_phone args book).1)
    ∧ convertsTo (show_all args book).1 (inputError (show_all args book).1)
    ∧ convertsTo (add_birthday args book).1 (inputError (add_birthday args book).1)
    ∧ convertsTo (show_birthday args book).1 (inputError (show_birthday args book).1)
    ∧ convertsTo (birthdays args book today).1 (inputError (birthdays args book today).1) := by
  have key : ∀ res : Except PyError String, convertsTo res (inputError res) := by
    intro res
    rcases res with e | s
    · cases e <;> rfl
    · rfl
  exact ⟨key _, key _, key _, key _, key _, key _, key _⟩

/-- Lemma unfolding `isLeap` to arithmetic. -/
theorem isLeap_iff (y : Nat) :
    isLeap y = true ↔ (y % 4 = 0 ∧ (y % 100 ≠ 0 ∨ y % 400 = 0)) := by
  simp [isLeap, Bool.and_eq_true, Bool.or_eq_true, beq_iff_eq, bne_iff_ne]

/-- February has 28 days in a non-leap year. -/
theorem daysInMonth_feb_of_not_leap {y : Nat} (h : isLeap y = false) :
    daysInMonth y 2 = 28 := by
  simp [daysInMonth, h]

/-- C9: with a stored leap-day birthday `29.02.2024`, the
`date.replace(year=...)` step of `get_upcoming_birthdays` raises
`ValueError("day is out of range for month")` whenever today's year is a
non-leap year, and likewise when today's year is leap but past Feb 29 so
that the rollover step targets the (never leap) next year; the
`birthdays` handler then surfaces the raw exception text, which is neither
of the documented outputs. -/
theorem feb29_not_total (today : PyDate) (h1 : 1 ≤ today.year) (h2 : today.year ≤ 9999) :
    (isLeap today.year = false →
        get_upcoming_birthdays feb29Book today
            = .error (.valueError "day is out of range for month")
        ∧ inputError (birthdays [] feb29Book today).1 = "day is out of range for month")
    ∧ (isLeap today.year = true → ltDate ⟨today.year, 2, 29⟩ today = true →
        get_upcoming_birthdays feb29Book today
            = .error (.valueError "day is out of range for month"))
    ∧ ("day is out of range for month" : String)
        ≠ "No upcoming birthdays in the next 7 days." := by
  have hparse : parseBD ("29.02.2024" : String).data = some (29, 2, 2024) := rfl
  have hdt : mkDatetime 2024 2 29 = .ok ⟨2024, 2, 29⟩ := rfl
  refine ⟨?_, ?_, by decide⟩
  · intro hleap
    have hdim := daysInMonth_feb_of_not_leap hleap
    have hrep : replaceYear ⟨2024, 2, 29⟩ today.year
        = .error (.valueError "day is out of range for month") := by
      show mkDatetime today.year 2 29 = _
      unfold mkDatetime
      rw [if_neg (by omega), if_neg (by omega), if_pos (by rw [hdim]; omega)]
    have hcand : candidateFor today ⟨2024, 2, 29⟩
        = .error (.valueError "day is out of range for month") := by
      simp [candidateFor, hrep]
    have hget : get_upcoming_birthdays feb29Book today
        = .error (.valueError "day is out of range for month") := by
      simp [get_upcoming_birthdays, feb29Book, getUpcomingAux, recordEntry,
        hparse, hdt, hcand]
    refine ⟨hget, ?_⟩
    simp [birthdays, hget, inputError]
  · intro hleap hlt
    have hy4 : today.year % 4 = 0 := ((isLeap_iff today.year).mp hleap).1
    have hrep0 : replaceYear ⟨2024, 2, 29⟩ today.year = .ok ⟨today.year, 2, 29⟩ := by
      show mkDatetime today.year 2 29 = _
      unfold mkDatetime
      rw [if_neg (by omega), if_neg (by omega),
        if_neg (by simp [daysInMonth, hleap])]
    have hnl : isLeap (today.year + 1) = false := by
      rw [Bool.eq_false_iff]
      intro hl
      have := ((isLeap_iff (today.year + 1)).mp hl).1
      omega
    have hrep1 : replaceYear ⟨today.year, 2, 29⟩ (today.year + 1)
        = .error (.valueError "day is out of range for month") := by
      show mkDatetime (today.year + 1) 2 29 = _
      unfold mkDatetime
      rw [if_neg (by omega), if_neg (by omega),
        if_pos (by rw [daysInMonth_feb_of_not_leap hnl]; omega)]
    have hcand : candidateFor today ⟨2024, 2, 29⟩
        = .error (.valueError "day is out of range for month") := by
      simp [candidateFor, hrep0, hlt, hrep1]
    simp [get_upcoming_birthdays, feb29Book, getUpcomingAux, recordEntry,
      hparse, hdt, hcand]

/-- C9 witness: the non-leap branch of `feb29_not_total` at the concrete
date 2025-06-10. -/
theorem feb29_not_total_witness :
    get_upcoming_birthdays feb29Book ⟨2025, 6, 10⟩
        = .error (.valueError "day is out of range for month")
    ∧ inputError (birthdays [] feb29Book ⟨2025, 6, 10⟩).1
        = "day is out of range for month" :=
  (feb29_not_total ⟨2025, 6, 10⟩ (by decide) (by decide)).1 (by decide)

/-- Unfolding of `getUpcomingAux` over a successful cons step. -/
theorem aux_ok_cons {today : PyDate} {kv : String × Record} {rest : List (String × Record)}
    {res : List (String × String)} :
    getUpcomingAux today (kv :: rest) = .ok res ↔
      ∃ e l, recordEntry today kv.2 = .ok e
        ∧ getUpcomingAux today rest = .ok l ∧ res = e.toList ++ l := by
  constructor
  · intro h
    cases he : recordEntry today kv.2 with
    | error e => simp [getUpcomingAux, he] at h
    | ok e =>
      cases hl : getUpcomingAux today rest with
      | error e2 => simp [getUpcomingAux, he, hl] at h
      | ok l =>
        simp only [getUpcomingAux, he, hl, Except.ok.injEq] at h
        exact ⟨e, l, rfl, rfl, h.symm⟩
  · rintro ⟨e, l, he, hl, rfl⟩
    simp [getUpcomingAux, he, hl]

/-- A successful `get_upcoming_birthdays` run is the `filterMap` of the
per-record emission over the book, in insertion order. -/
theorem aux_ok_filterMap {today : PyDate} {l : List (String × Record)}
    {res : List (String × String)} (h : getUpcomingAux today l = .ok res) :
    res = l.filterMap fun kv => entryOk today kv.2 := by
  induction l generalizing res with
  | nil =>
    simp only [getUpcomingAux, Except.ok.injEq] at h
    simp [← h]
  | cons kv rest ih =>
    obtain ⟨e, l2, he, hl, rfl⟩ := aux_ok_cons.mp h
    rw [List.filterMap_cons]
    have hek : entryOk today kv.2 = e := by simp [entryOk, he]
    rw [hek, ← ih hl]
    cases e <;> simp

/-- A successful run means no record's iteration raised. -/
theorem aux_ok_no_error {today : PyDate} {l : List (String × Record)}
    {res : List (String × String)} (h : getUpcomingAux today l = .ok res) :
    ∀ kv ∈ l, ∃ o, recordEntry today kv.2 = .ok o := by
  induction l generalizing res with
  | nil => simp
  | cons kv rest ih =>
    obtain ⟨e, l2, he, hl, _⟩ := aux_ok_cons.mp h
    intro kv' hkv'
    rcases List.mem_cons.mp hkv' with rfl | hmem
    · exact ⟨e, he⟩
    · exact ih hl kv' hmem

/-- A successfully emitted entry carries the record's name and certifies
that the record qualifies. -/
theorem recordEntry_ok_some {today : PyDate} {r : Record} {p : String × String}
    (h : recordEntry today r = .ok (some p)) :
    p.1 = r.name ∧ qualifies today r := by
  unfold recordEntry at h
  rcases hb : r.birthday with _ | bs <;> simp only [hb] at h
  · simp at h
  · rcases hp : parseBD bs.data with _ | dmy <;> simp only [hp] at h
    · simp at h
    · obtain ⟨d, m, y⟩ := dmy
      rcases hd : mkDatetime y m d with e | bd <;> simp only [hd] at h
      · simp at h
      · rcases hc : candidateFor today bd with e | c <;> simp only [hc] at h
        · simp at h
        · by_cases hw : 0 ≤ daysUntil today c ∧ daysUntil today c ≤ 7
          · rw [if_pos hw] at h
            by_cases hy : (weekendAdjust c).year ≤ 9999
            · rw [if_pos hy] at h
              simp only [Except.ok.injEq, Option.some.injEq] at h
              exact ⟨by rw [← h], by
                exact ⟨bs, d, m, y, bd, c, hb, hp, hd, hc, hw.1, hw.2⟩⟩
            · rw [if_neg hy] at h
              simp at h
          · rw [if_neg hw] at h
            simp at h

/-- A record whose qualification data are given emits exactly the
weekend-adjusted candidate, whenever its iteration did not raise. -/
theorem recordEntry_emit {today : PyDate} {r : Record} {o : Option (String × String)}
    {bs : String} {d m y : Nat} {bd c : PyDate}
    (hb : r.birthday = some bs) (hp : parseBD bs.data = some (d, m, y))
    (hd : mkDatetime y m d = .ok bd) (hc : candidateFor today bd = .ok c)
    (h0 : 0 ≤ daysUntil today c) (h7 : daysUntil today c ≤ 7)
    (h : recordEntry today r = .ok o) :
    o = some (r.name, formatDate (weekendAdjust c)) := by
  unfold recordEntry at h
  simp only [hb, hp, hd, hc] at h
  rw [if_pos ⟨h0, h7⟩] at h
  by_cases hy : (weekendAdjust c).year ≤ 9999
  · rw [if_pos hy] at h
    simp only [Except.ok.injEq] at h
    exact h.symm
  · rw [if_neg hy] at h
    simp at h

/-- C1: on a successful run over a book with pairwise distinct record
names, a record with a birthday contributes an entry if and only if its
candidate date (year replaced by today's year, advanced to next year if
earlier than today) lies 0..7 days after today inclusive; and if no record
qualifies, the result is the empty sequence. -/
theorem upcoming_window (book : AddressBook) (today : PyDate)
    (res : List (String × String))
    (hnames : (book.data.map fun kv => kv.2.name).Nodup)
    (hok : get_upcoming_birthdays book today = .ok res) :
    (∀ k r, (k, r) ∈ book.data → r.birthday.isSome = true →
        ((∃ ds, (r.name, ds) ∈ res) ↔ qualifies today r))
    ∧ ((∀ k r, (k, r) ∈ book.data → ¬ qualifies today r) → res = []) := by
  have hfm := aux_ok_filterMap hok
  have hne := aux_ok_no_error hok
  constructor
  · intro k r hmem _
    constructor
    · rintro ⟨ds, hds⟩
      rw [hfm] at hds
      obtain ⟨kv, hkv, hekv⟩ := List.mem_filterMap.mp hds
      have hre : recordEntry today kv.2 = .ok (some (r.name, ds)) := by
        unfold entryOk at hekv
        rcases h2 : recordEntry today kv.2 with e | o <;> simp only [h2] at hekv
        · simp at hekv
        · rw [hekv]
      obtain ⟨hname, hq⟩ := recordEntry_ok_some hre
      have hkvr : kv = (k, r) := by
        apply List.inj_on_of_nodup_map hnames hkv hmem
        exact hname.symm
      rw [hkvr] at hq
      exact hq
    · intro hq
      obtain ⟨o, ho⟩ := hne (k, r) hmem
      obtain ⟨bs, d, m, y, bd, c, hb, hp, hd, hc, h0, h7⟩ := hq
      have := recordEntry_emit hb hp hd hc h0 h7 ho
      refine ⟨formatDate (weekendAdjust c), ?_⟩
      rw [hfm]
      exact List.mem_filterMap.mpr ⟨(k, r), hmem, by simp [entryOk, ho, this]⟩
  · intro hnone
    rw [hfm]
    rw [List.filterMap_eq_nil_iff]
    intro kv hkv
    rcases he : entryOk today kv.2 with _ | p
    · rfl
    · exfalso
      have hre : recordEntry today kv.2 = .ok (some p) := by
        unfold entryOk at he
        rcases h2 : recordEntry today kv.2 with e | o <;> simp only [h2] at he
        · simp at he
        · rw [he]
      exact hnone kv.1 kv.2 hkv (recordEntry_ok_some hre).2

/-- C1 witness: on the scenario book, Bob (5 days out) is included. -/
theorem upcoming_window_witness :
    ∃ ds, ("Bob", ds) ∈ ([("Bob", "17.06.2024")] : List (String × String)) :=
  ((upcoming_window bobBook june10 [("Bob", "17.06.2024")] (by decide) rfl).1
    "Bob" bobRecord (by decide) (by decide)).mpr
    ⟨"15.06.2024", 15, 6, 2024, ⟨2024, 6, 15⟩, ⟨2024, 6, 15⟩, rfl, rfl, rfl, rfl,
      by decide, by decide⟩

/-- C2 (amended): every emitted congratulation date is the candidate
shifted by 2 days when the candidate falls on Saturday (weekday 5), by
1 day when on Sunday (weekday 6), and unshifted otherwise
(`weekendAdjust`); with today = 2024-06-10, Bob's Saturday birthday
15.06.2024 is reported as 17.06.2024 — a date that sits exactly at the
inclusive 7-day boundary of the window, not outside it. -/
theorem congrats_weekend_shift (book : AddressBook) (today : PyDate)
    (res : List (String × String)) (k : String) (r : Record)
    (bs : String) (d m y : Nat) (bd c : PyDate)
    (hok : get_upcoming_birthdays book today = .ok res)
    (hmem : (k, r) ∈ book.data)
    (hb : r.birthday = some bs)
    (hp : parseBD bs.data = some (d, m, y))
    (hd : mkDatetime y m d = .ok bd)
    (hc : candidateFor today bd = .ok c)
    (h0 : 0 ≤ daysUntil today c) (h7 : daysUntil today c ≤ 7) :
    (r.name, formatDate (weekendAdjust c)) ∈ res := by
  obtain ⟨o, ho⟩ := aux_ok_no_error hok (k, r) hmem
  have hoeq := recordEntry_emit hb hp hd hc h0 h7 ho
  rw [aux_ok_filterMap hok]
  exact List.mem_filterMap.mpr ⟨(k, r), hmem, by simp [entryOk, ho, hoeq]⟩

/-- C2 counterexample: the claim's rider says the shifted date 17.06.2024
lies outside the 0..7-day window, but it is exactly 7 days after
2024-06-10, which the inclusive window contains. -/
theorem shifted_date_inside_window :
    get_upcoming_birthdays bobBook june10 = .ok [("Bob", "17.06.2024")]
    ∧ daysUntil june10 ⟨2024, 6, 17⟩ = 7
    ∧ ¬(daysUntil june10 ⟨2024, 6, 17⟩ < 0 ∨ 7 < daysUntil june10 ⟨2024, 6, 17⟩) := by
  refine ⟨rfl, by decide, by decide⟩

/-- C2 witness: `congrats_weekend_shift` instantiated on the spec's
scenario, reporting Bob on 17.06.2024 (candidate Saturday 15.06.2024
shifted by 2 days). -/
theorem congrats_weekend_shift_witness :
    ("Bob", "17.06.2024") ∈ ([("Bob", "17.06.2024")] : List (String × String)) :=
  congrats_weekend_shift bobBook june10 [("Bob", "17.06.2024")] "Bob" bobRecord
    "15.06.2024" 15 6 2024 ⟨2024, 6, 15⟩ ⟨2024, 6, 15⟩ rfl (by decide) rfl rfl rfl rfl
    (by decide) (by decide)

end Module7
